import Mathlib

/-!
Shallow embedding of the session/history manager of the FastAPI OpenRouter
proxy (`chat_manager.py`, `models.py`, the error-classification fragment of
`main.py` and the error messages of `openrouter_client.py`), together with
proofs of the specification's testable properties.

Python `datetime` values are modelled by their calendar fields with
microsecond precision, exactly the information `datetime.isoformat` writes
and `datetime.fromisoformat` reads back.  The file system is modelled as a
map from filename stem to file content, a file content being either a valid
JSON document tree or an unparseable blob (the `json.JSONDecodeError` case).
Python exceptions relevant to the code are `ValueError` (which subsumes
pydantic's `ValidationError`), `KeyError` and `TypeError`.
-/

namespace OpenRouterProxy

/-- Naive local datetime as produced by Python's `datetime.now()`:
calendar fields plus microseconds. -/
structure DateTime where
  year : Nat
  month : Nat
  day : Nat
  hour : Nat
  minute : Nat
  second : Nat
  microsecond : Nat
deriving Repr, DecidableEq

/-- The character of the decimal digit `n`. -/
def digitChar (n : Nat) : Char := Char.ofNat (48 + n)

/-- Is `c` one of the characters `0`–`9`? -/
def isDigitChar (c : Char) : Bool := 48 ≤ c.toNat && c.toNat ≤ 57

/-- Numeric value of a digit character. -/
def digitVal (c : Char) : Nat := c.toNat - 48

/-- Zero-padded two-digit decimal rendering (`%02d`). -/
def pad2 (n : Nat) : List Char := [digitChar (n / 10), digitChar (n % 10)]

/-- Zero-padded four-digit decimal rendering (`%04d`), for `n < 10000`. -/
def pad4 (n : Nat) : List Char := pad2 (n / 100) ++ pad2 (n % 100)

/-- Zero-padded six-digit decimal rendering (`%06d`), for `n < 1000000`. -/
def pad6 (n : Nat) : List Char :=
  pad2 (n / 10000) ++ pad2 (n / 100 % 100) ++ pad2 (n % 100)

/-- `datetime.isoformat()` output as a character list:
`YYYY-MM-DDTHH:MM:SS`, extended by `.ffffff` exactly when
`microsecond ≠ 0`. -/
def isoChars (d : DateTime) : List Char :=
  pad4 d.year ++ '-' :: pad2 d.month ++ '-' :: pad2 d.day ++
    'T' :: pad2 d.hour ++ ':' :: pad2 d.minute ++ ':' :: pad2 d.second ++
    (if d.microsecond = 0 then [] else '.' :: pad6 d.microsecond)

/-- `datetime.isoformat()` output as a string. -/
def isoformat (d : DateTime) : String := String.mk (isoChars d)

/-- Parse two digit characters as a decimal number. -/
def parse2 (a b : Char) : Option Nat :=
  if isDigitChar a && isDigitChar b then some (10 * digitVal a + digitVal b)
  else none

/-- Parse four digit characters as a decimal number. -/
def parse4 (a b c d : Char) : Option Nat := do
  let hi ← parse2 a b
  let lo ← parse2 c d
  pure (100 * hi + lo)

/-- Parse six digit characters as a decimal number. -/
def parse6 (a b c d e f : Char) : Option Nat := do
  let hi ← parse2 a b
  let mid ← parse2 c d
  let lo ← parse2 e f
  pure (10000 * hi + 100 * mid + lo)

/-- `datetime.fromisoformat`, restricted to the shapes `isoformat` emits
(`YYYY-MM-DDTHH:MM:SS` optionally followed by `.ffffff`).  Python's parser
additionally accepts other ISO-8601 spellings, none of which the program
ever writes, so they are immaterial to the properties proved here. -/
def fromisoformatChars : List Char → Option DateTime
  | y1 :: y2 :: y3 :: y4 :: s1 :: m1 :: m2 :: s2 :: d1 :: d2 :: s3 ::
      h1 :: h2 :: s4 :: mi1 :: mi2 :: s5 :: se1 :: se2 :: rest =>
    if s1 = '-' ∧ s2 = '-' ∧ s3 = 'T' ∧ s4 = ':' ∧ s5 = ':' then do
      let y ← parse4 y1 y2 y3 y4
      let mo ← parse2 m1 m2
      let da ← parse2 d1 d2
      let h ← parse2 h1 h2
      let mi ← parse2 mi1 mi2
      let se ← parse2 se1 se2
      match rest with
      | [] => pure ⟨y, mo, da, h, mi, se, 0⟩
      | s6 :: u1 :: u2 :: u3 :: u4 :: u5 :: u6 :: [] =>
        if s6 = '.' then do
          let us ← parse6 u1 u2 u3 u4 u5 u6
          pure ⟨y, mo, da, h, mi, se, us⟩
        else none
      | _ => none
    else none
  | _ => none

/-- `datetime.fromisoformat` on a string. -/
def fromisoformatStr (s : String) : Option DateTime :=
  fromisoformatChars s.data

/-- Field ranges under which the zero-padded rendering is faithful; every
value `datetime.now()` can produce satisfies this (real datetimes satisfy
much tighter bounds). -/
def DateTime.Valid (d : DateTime) : Prop :=
  d.year < 10000 ∧ d.month < 100 ∧ d.day < 100 ∧ d.hour < 100 ∧
    d.minute < 100 ∧ d.second < 100 ∧ d.microsecond < 1000000

instance (d : DateTime) : Decidable d.Valid := by
  unfold DateTime.Valid
  exact inferInstance

/-- `models.ChatMessage`: one conversational turn.  The `timestamp` default
(`datetime.now()`) is supplied by the caller of the constructor in this
embedding, since wall-clock time is an input of the program. -/
structure ChatMessage where
  role : String
  content : String
  timestamp : DateTime
deriving Repr, DecidableEq

/-- `models.ChatSession`: one conversation thread (field order as in the
source). -/
structure ChatSession where
  chat_id : String
  messages : List ChatMessage
  created_at : DateTime
  updated_at : DateTime
  model : String
deriving Repr, DecidableEq

/-- The Python exceptions the session-store code can raise or catch:
`ValueError` (which subsumes pydantic's `ValidationError`), `KeyError`
(missing dict key) and `TypeError` (operation on a wrongly typed value). -/
inductive PyErr where
  | valueError (msg : String)
  | keyError
  | typeError
deriving Repr, DecidableEq

/-- A JSON document tree, the result of a successful `json.load`. -/
inductive JValue where
  | str (s : String)
  | num (n : Int)
  | bool (b : Bool)
  | null
  | arr (elems : List JValue)
  | obj (fields : List (String × JValue))

/-- Content of a file in the storage directory: either text that
`json.load` rejects (`JSONDecodeError`), or a parsed document. -/
inductive FileContent where
  | invalid
  | valid (v : JValue)

/-- First-match lookup in an association list (Python dict read). -/
def lookupKey {α : Type} (l : List (String × α)) (k : String) : Option α :=
  (l.find? (fun p => p.1 == k)).map (fun p => p.2)

/-- Python dict / file-system write: replace the value in place when the
key is present, append otherwise. -/
def setKey {α : Type} (l : List (String × α)) (k : String) (v : α) :
    List (String × α) :=
  if l.any (fun p => p.1 == k) then
    l.map (fun p => if p.1 == k then (k, v) else p)
  else l ++ [(k, v)]

/-- State of a `ChatManager` instance: the configured `max_messages`
bound, the `active_sessions` cache, and the storage directory's files
keyed by filename stem (every file the manager writes is named
`<chat_id>.json`, so the stem is the chat id). -/
structure ChatManagerState where
  max_messages : Nat
  active_sessions : List (String × ChatSession)
  files : List (String × FileContent)

/-- Python subscripting `v[k]` for a string key `k`: a dict lookup
(`KeyError` when the key is missing; for duplicate keys `json.load` keeps
the last occurrence), `TypeError` on any non-dict value. -/
def subscript (v : JValue) (k : String) : Except PyErr JValue :=
  match v with
  | .obj fields =>
    match lookupKey fields.reverse k with
    | some x => .ok x
    | none => .error .keyError
  | _ => .error .typeError

/-- Python iteration `for x in v` over a JSON-decoded value: lists yield
their elements, strings their one-character substrings, dicts their keys;
numbers, booleans and `None` raise `TypeError`. -/
def pyIterate (v : JValue) : Except PyErr (List JValue) :=
  match v with
  | .arr elems => .ok elems
  | .str s => .ok (s.data.map (fun c => JValue.str (String.mk [c])))
  | .obj fields => .ok (fields.map (fun p => JValue.str p.1))
  | _ => .error .typeError

/-- Pydantic validation of a `str`-annotated field: accepts exactly
strings (pydantic v2 does not coerce numbers, booleans or null to `str`);
a failure is a `ValidationError`, which is a `ValueError`. -/
def asStr (v : JValue) : Except PyErr String :=
  match v with
  | .str s => .ok s
  | _ => .error (.valueError "validation error")

/-- `datetime.fromisoformat(v)`: `TypeError` on a non-string argument,
`ValueError` on a string it cannot parse. -/
def pyFromisoformat (v : JValue) : Except PyErr DateTime :=
  match v with
  | .str s =>
    match fromisoformatStr s with
    | some d => .ok d
    | none => .error (.valueError "Invalid isoformat string")
  | _ => .error .typeError

/-- One iteration of the message-decoding comprehension in
`_load_session_from_file`: `ChatMessage(role=msg["role"],
content=msg["content"], timestamp=datetime.fromisoformat(msg["timestamp"]))`,
arguments evaluated left to right, then pydantic validation. -/
def parseMessage (m : JValue) : Except PyErr ChatMessage := do
  let r ← subscript m "role"
  let c ← subscript m "content"
  let tJ ← subscript m "timestamp"
  let t ← pyFromisoformat tJ
  let role ← asStr r
  let content ← asStr c
  pure ⟨role, content, t⟩

/-- The whole message-decoding comprehension. -/
def parseMessages : List JValue → Except PyErr (List ChatMessage)
  | [] => .ok []
  | m :: rest => do
    let msg ← parseMessage m
    let msgs ← parseMessages rest
    pure (msg :: msgs)

/-- The body of the `try` block of `_load_session_from_file` after
`json.load` succeeded: decode the messages, then build the `ChatSession`
(keyword arguments evaluated in source order). -/
def loadRaw (v : JValue) : Except PyErr ChatSession := do
  let msgsJ ← subscript v "messages"
  let items ← pyIterate msgsJ
  let messages ← parseMessages items
  let cidJ ← subscript v "chat_id"
  let modelJ ← subscript v "model"
  let createdJ ← subscript v "created_at"
  let created_at ← pyFromisoformat createdJ
  let updatedJ ← subscript v "updated_at"
  let updated_at ← pyFromisoformat updatedJ
  let chat_id ← asStr cidJ
  let model ← asStr modelJ
  pure ⟨chat_id, messages, created_at, updated_at, model⟩

/-- JSON encoding of one message, as written by `_save_session_to_file`. -/
def encodeMessage (m : ChatMessage) : JValue :=
  .obj [("role", .str m.role), ("content", .str m.content),
    ("timestamp", .str (isoformat m.timestamp))]

/-- The `session_data` document written by `_save_session_to_file`. -/
def encodeSession (s : ChatSession) : JValue :=
  .obj [("chat_id", .str s.chat_id), ("model", .str s.model),
    ("created_at", .str (isoformat s.created_at)),
    ("updated_at", .str (isoformat s.updated_at)),
    ("messages", .arr (s.messages.map encodeMessage))]

/-- `ChatManager._save_session_to_file`: full-file overwrite of
`<chat_id>.json` with the session document. -/
def save_session_to_file (st : ChatManagerState) (s : ChatSession) :
    ChatManagerState :=
  { st with files := setKey st.files s.chat_id (.valid (encodeSession s)) }

/-- `ChatManager._load_session_from_file`.  A missing file returns `None`;
a `json.JSONDecodeError`, `KeyError` or `ValueError` is caught (an error
is printed) and returns `None`; any other exception — in particular
`TypeError` — propagates.  On success the cache is populated. -/
def load_session_from_file (st : ChatManagerState) (chat_id : String) :
    Except PyErr (Option ChatSession) × ChatManagerState :=
  match lookupKey st.files chat_id with
  | none => (.ok none, st)
  | some .invalid => (.ok none, st)
  | some (.valid v) =>
    match loadRaw v with
    | .ok s =>
      (.ok (some s),
        { st with active_sessions := setKey st.active_sessions chat_id s })
    | .error .typeError => (.error .typeError, st)
    | .error _ => (.ok none, st)

/-- `ChatManager.create_session`: the fresh `chat_id` (produced by
`uuid.uuid4()`) and the two `datetime.now()` results backing the
`created_at` and `updated_at` defaults are inputs of the embedding. -/
def create_session (st : ChatManagerState) (chat_id model : String)
    (tCreated tUpdated : DateTime) : String × ChatManagerState :=
  let session : ChatSession := ⟨chat_id, [], tCreated, tUpdated, model⟩
  (chat_id,
    { st with active_sessions := setKey st.active_sessions chat_id session })

/-- `ChatManager.get_session`: cache hit, else disk fallback. -/
def get_session (st : ChatManagerState) (chat_id : String) :
    Except PyErr (Option ChatSession) × ChatManagerState :=
  match lookupKey st.active_sessions chat_id with
  | some s => (.ok (some s), st)
  | none => load_session_from_file st chat_id

/-- Python list slice `l[-k:]` (the trim in `add_message`): the last `k`
elements when `0 < k`, the whole list when `k = 0` (since `l[-0:]` is
`l[0:]`). -/
def pySliceLast {α : Type} (l : List α) (k : Nat) : List α :=
  if k = 0 then l else l.drop (l.length - k)

/-- `ChatManager.add_message`.  `tMsg` is the `datetime.now()` backing the
new message's timestamp default, `tUpd` the separate `datetime.now()`
assigned to `updated_at`.  An unknown session raises
`ValueError(f"Chat session {chat_id} not found")`. -/
def add_message (st : ChatManagerState) (chat_id role content : String)
    (tMsg tUpd : DateTime) : Except PyErr ChatSession × ChatManagerState :=
  match get_session st chat_id with
  | (.error e, st1) => (.error e, st1)
  | (.ok none, st1) =>
    (.error (.valueError ("Chat session " ++ chat_id ++ " not found")), st1)
  | (.ok (some s), st1) =>
    let message : ChatMessage := ⟨role, content, tMsg⟩
    let appended := s.messages ++ [message]
    let max_total_messages := st1.max_messages * 2
    let trimmed :=
      if appended.length > max_total_messages then
        pySliceLast appended max_total_messages
      else appended
    let s' : ChatSession :=
      { s with messages := trimmed, updated_at := tUpd }
    let st2 :=
      { st1 with active_sessions := setKey st1.active_sessions chat_id s' }
    let st3 := save_session_to_file st2 s'
    (.ok s', st3)

/-- `ChatManager.get_conversation_history`: role/content pairs of the
session's messages, `[]` for an unknown session. -/
def get_conversation_history (st : ChatManagerState) (chat_id : String) :
    Except PyErr (List (String × String)) × ChatManagerState :=
  match get_session st chat_id with
  | (.error e, st1) => (.error e, st1)
  | (.ok none, st1) => (.ok [], st1)
  | (.ok (some s), st1) =>
    (.ok (s.messages.map (fun m => (m.role, m.content))), st1)

/-- `ChatManager.list_sessions`: the stems of the `*.json` files in the
storage directory (the in-memory cache plays no part). -/
def list_sessions (st : ChatManagerState) : List String :=
  st.files.map (fun p => p.1)

/-! ### Error classification in `main.py`'s chat endpoint -/

/-- `models.ErrorResponse`: the structured error body. -/
structure ErrorResponse where
  error : String
  status : String
  code : Nat
deriving Repr, DecidableEq

/-- An `HTTPException` as raised by the endpoint: HTTP status plus body. -/
structure HTTPExceptionModel where
  status_code : Nat
  detail : ErrorResponse
deriving Repr, DecidableEq

/-- Python `str.lower()` (ASCII case folding; every string the
classification inspects is ASCII). -/
def pyLower (s : String) : String := String.mk (s.data.map Char.toLower)

/-- Does `needle` occur as a contiguous run inside `hay`? -/
def containsSub (hay needle : List Char) : Bool :=
  hay.tails.any (fun t => needle.isPrefixOf t)

/-- Python substring test `needle in hay`. -/
def pyContains (hay needle : String) : Bool := containsSub hay.data needle.data

/-- The keyword list of `chat_endpoint`'s `OpenRouterError` handler. -/
def chat_keywords : List String := ["invalid", "unauthorized", "bad request"]

/-- The `OpenRouterError` handler in `chat_endpoint`: messages containing
(after lowercasing) one of the keywords become HTTP 400, all others 502,
and the body repeats the chosen code. -/
def openrouter_error_response (error_message : String) : HTTPExceptionModel :=
  let status_code :=
    if chat_keywords.any (fun keyword => pyContains (pyLower error_message) keyword)
    then 400 else 502
  ⟨status_code,
    ⟨"OpenRouter API error: " ++ error_message, "error", status_code⟩⟩

/-- The apostrophe character (U+0027). -/
def apostrophe : Char := Char.ofNat 39

/-- Error message raised by `call_openrouter` on a 401/unauthorized
upstream failure. -/
def unauthorized_message : String := "Invalid API key or unauthorized access"

/-- Error message raised by `call_openrouter` on a 429/rate-limit
upstream failure. -/
def rate_limit_message : String := "Rate limit exceeded"

/-- Error message raised by `call_openrouter` on a 404/not-found upstream
failure (`f"Model '{model}' not found or not available"`). -/
def model_not_found_message (model : String) : String :=
  "Model " ++ String.mk [apostrophe] ++ model ++ String.mk [apostrophe] ++
    " not found or not available"

/-- Error message raised by `call_openrouter` on a 400/bad-request
upstream failure. -/
def bad_request_message : String := "Invalid request format or parameters"

/-! ### Derived definitions used by the theorems -/

/-- The trim applied by `add_message` after appending `m`: keep only the
last `maxTotal` messages via the slice `[-maxTotal:]` whenever the bound
is exceeded. -/
def trimmedMessages (maxTotal : Nat) (msgs : List ChatMessage)
    (m : ChatMessage) : List ChatMessage :=
  if (msgs ++ [m]).length > maxTotal then pySliceLast (msgs ++ [m]) maxTotal
  else msgs ++ [m]

/-- The last `k` elements of a list (all of it when it is shorter). -/
def lastN {α : Type} (k : Nat) (l : List α) : List α :=
  l.drop (l.length - k)

/-- The message a `(role, content, tMsg, tUpd)` call argument tuple of
`add_message` turns into. -/
def inputMessage (input : String × String × DateTime × DateTime) :
    ChatMessage :=
  ⟨input.1, input.2.1, input.2.2.1⟩

/-- A sequence of `add_message` calls against one session, stopping at the
first raised exception. -/
def run_appends (chat_id : String) : ChatManagerState →
    List (String × String × DateTime × DateTime) →
    Except PyErr ChatManagerState
  | st, [] => .ok st
  | st, input :: rest =>
    match add_message st chat_id input.1 input.2.1 input.2.2.1 input.2.2.2 with
    | (.ok _, st') => run_appends chat_id st' rest
    | (.error e, _) => .error e

/-- Python `str.strip()` whitespace test. -/
def isPySpace (c : Char) : Bool :=
  c = ' ' ∨ c = '\t' ∨ c = '\n' ∨ c = '\r' ∨ c = '\x0b' ∨ c = '\x0c'

/-- Python `str.strip()`: remove leading and trailing whitespace. -/
def pyStrip (s : String) : String :=
  String.mk (((s.data.dropWhile isPySpace).reverse.dropWhile isPySpace).reverse)

/-- A fixed sample datetime used by concrete instances. -/
def dt0 : DateTime := ⟨2024, 1, 1, 0, 0, 0, 0⟩

/-! ### Faithfulness of the timestamp codec -/

theorem digitChar_isDigit {n : Nat} (h : n < 10) :
    isDigitChar (digitChar n) = true := by
  interval_cases n <;> decide

theorem digitVal_digitChar {n : Nat} (h : n < 10) :
    digitVal (digitChar n) = n := by
  interval_cases n <;> decide

theorem parse2_pad2 {n : Nat} (h : n < 100) :
    parse2 (digitChar (n / 10)) (digitChar (n % 10)) = some n := by
  have h1 : n / 10 < 10 := by omega
  have h2 : n % 10 < 10 := by omega
  simp [parse2, digitChar_isDigit h1, digitChar_isDigit h2,
    digitVal_digitChar h1, digitVal_digitChar h2]
  omega

theorem fromisoformat_isoformat (d : DateTime) (h : d.Valid) :
    fromisoformatStr (isoformat d) = some d := by
  obtain ⟨y, mo, da, ho, mi, se, us⟩ := d
  simp only [DateTime.Valid] at h
  obtain ⟨hy, hmo, hda, hho, hmi, hse, hus⟩ := h
  have hyhi : y / 100 < 100 := by omega
  have hylo : y % 100 < 100 := by omega
  have hu1 : us / 10000 < 100 := by omega
  have hu2 : us / 100 % 100 < 100 := by omega
  have hu3 : us % 100 < 100 := by omega
  show fromisoformatChars (isoChars ⟨y, mo, da, ho, mi, se, us⟩) = _
  by_cases h0 : us = 0 <;>
    simp_all [isoChars, pad4, pad6, pad2, fromisoformatChars,
      parse4, parse6, parse2_pad2 hyhi, parse2_pad2 hylo, parse2_pad2 hmo,
      parse2_pad2 hda, parse2_pad2 hho, parse2_pad2 hmi, parse2_pad2 hse,
      parse2_pad2 hu1, parse2_pad2 hu2, parse2_pad2 hu3] <;>
    omega

/-! ### Association-list lemmas for the cache and the file system -/

theorem lookupKey_cons_self {α : Type} (k : String) (v : α)
    (l : List (String × α)) : lookupKey ((k, v) :: l) k = some v := by
  simp [lookupKey, List.find?_cons]

theorem lookupKey_cons_of_ne {α : Type} (p : String × α)
    (l : List (String × α)) (k : String) (hp : (p.1 == k) = false) :
    lookupKey (p :: l) k = lookupKey l k := by
  simp [lookupKey, List.find?_cons, hp]

theorem lookupKey_map_set {α : Type} (l : List (String × α)) (k : String)
    (v : α) (h : l.any (fun p => p.1 == k) = true) :
    lookupKey (l.map fun p => if p.1 == k then (k, v) else p) k = some v := by
  induction l with
  | nil => simp at h
  | cons p rest ih =>
    rw [List.map_cons]
    by_cases hp : (p.1 == k) = true
    · rw [if_pos hp]
      exact lookupKey_cons_self k v _
    · rw [Bool.not_eq_true] at hp
      rw [if_neg (by simp [hp])]
      rw [lookupKey_cons_of_ne _ _ _ (by simp [hp])]
      apply ih
      simpa [hp] using h

theorem lookupKey_append_single {α : Type} (l : List (String × α))
    (k : String) (v : α) (h : l.any (fun p => p.1 == k) = false) :
    lookupKey (l ++ [(k, v)]) k = some v := by
  induction l with
  | nil => simpa using lookupKey_cons_self k v []
  | cons p rest ih =>
    simp only [List.any_cons, Bool.or_eq_false_iff] at h
    obtain ⟨hp, hrest⟩ := h
    rw [List.cons_append, lookupKey_cons_of_ne _ _ _ hp]
    exact ih hrest

theorem lookupKey_setKey_self {α : Type} (l : List (String × α))
    (k : String) (v : α) : lookupKey (setKey l k v) k = some v := by
  unfold setKey
  by_cases h : l.any (fun p => p.1 == k) = true
  · rw [if_pos h]
    exact lookupKey_map_set l k v h
  · rw [if_neg h]
    exact lookupKey_append_single l k v (by rwa [Bool.not_eq_true] at h)

theorem mem_keys_setKey {α : Type} (l : List (String × α)) (k : String)
    (v : α) : k ∈ (setKey l k v).map (fun p => p.1) := by
  unfold setKey
  by_cases h : l.any (fun p => p.1 == k) = true
  · obtain ⟨p, hpmem, hpk⟩ := List.any_eq_true.mp h
    rw [if_pos h, List.map_map]
    have hpk' : p.1 = k := by simpa using hpk
    exact List.mem_map.mpr ⟨p, hpmem, by simp [hpk']⟩
  · rw [if_neg h]
    simp

theorem not_mem_keys_of_lookupKey_none {α : Type} (l : List (String × α))
    (k : String) (h : lookupKey l k = none) :
    k ∉ l.map (fun p => p.1) := by
  intro hk
  obtain ⟨p, hpmem, hpk⟩ := List.mem_map.mp hk
  have hfind : List.find? (fun q => q.1 == k) l = none := by
    cases hf : List.find? (fun q => q.1 == k) l with
    | none => rfl
    | some q =>
      unfold lookupKey at h
      rw [hf] at h
      simp at h
  rw [List.find?_eq_none] at hfind
  exact hfind p hpmem (by simp [hpk])

theorem getLast?_trimmedMessages (maxTotal : Nat) (msgs : List ChatMessage)
    (m : ChatMessage) : (trimmedMessages maxTotal msgs m).getLast? = some m := by
  unfold trimmedMessages
  by_cases htrim : (msgs ++ [m]).length > maxTotal
  · rw [if_pos htrim]
    unfold pySliceLast
    by_cases hk : maxTotal = 0
    · rw [if_pos hk]
      exact List.getLast?_concat _
    · rw [if_neg hk]
      rw [List.drop_append_of_le_length (by simp; omega)]
      exact List.getLast?_concat _
  · rw [if_neg htrim]
    exact List.getLast?_concat _

theorem isSuffix_trimmedMessages (maxTotal : Nat) (msgs : List ChatMessage)
    (m : ChatMessage) :
    List.IsSuffix (trimmedMessages maxTotal msgs m) (msgs ++ [m]) := by
  unfold trimmedMessages
  by_cases htrim : (msgs ++ [m]).length > maxTotal
  · rw [if_pos htrim]
    unfold pySliceLast
    by_cases hk : maxTotal = 0
    · rw [if_pos hk]
    · rw [if_neg hk]
      exact List.drop_suffix _ _
  · rw [if_neg htrim]

/-- The result of `add_message` on a cache hit, as one equation. -/
theorem add_message_cached (st : ChatManagerState)
    (chat_id role content : String) (tMsg tUpd : DateTime) (s : ChatSession)
    (hcache : lookupKey st.active_sessions chat_id = some s) :
    add_message st chat_id role content tMsg tUpd =
      (.ok { s with
          messages :=
            trimmedMessages (st.max_messages * 2) s.messages
              ⟨role, content, tMsg⟩,
          updated_at := tUpd },
        save_session_to_file
          { st with
            active_sessions :=
              setKey st.active_sessions chat_id
                { s with
                  messages :=
                    trimmedMessages (st.max_messages * 2) s.messages
                      ⟨role, content, tMsg⟩,
                  updated_at := tUpd } }
          { s with
            messages :=
              trimmedMessages (st.max_messages * 2) s.messages
                ⟨role, content, tMsg⟩,
            updated_at := tUpd }) := by
  unfold add_message get_session
  rw [hcache]
  rfl

theorem length_lastN {α : Type} (k : Nat) (l : List α) :
    (lastN k l).length = min l.length k := by
  simp only [lastN, List.length_drop]
  omega

theorem trimmedMessages_lastN (k : Nat) (hk : 0 < k) (ms : List ChatMessage)
    (m : ChatMessage) :
    trimmedMessages k (lastN k ms) m = lastN k (ms ++ [m]) := by
  by_cases hlen : ms.length < k
  · have e1 : lastN k ms = ms := by
      unfold lastN
      rw [Nat.sub_eq_zero_of_le (le_of_lt hlen), List.drop_zero]
    rw [e1]
    unfold trimmedMessages
    rw [if_neg (by simp; omega)]
    unfold lastN
    rw [show (ms ++ [m]).length - k = 0 by simp; omega, List.drop_zero]
  · have hle : k ≤ ms.length := by omega
    have e1 : (lastN k ms).length = k := by rw [length_lastN]; omega
    unfold trimmedMessages
    rw [if_pos (by rw [List.length_append, e1]; simp)]
    unfold pySliceLast
    rw [if_neg (by omega)]
    rw [List.length_append, e1]
    rw [show k + [m].length - k = 1 by simp]
    rw [List.drop_append_of_le_length (by rw [e1]; omega)]
    unfold lastN
    rw [List.drop_drop]
    rw [List.drop_append_of_le_length (by simp; omega)]
    have e2 : ms.length - k + 1 = (ms ++ [m]).length - k := by simp; omega
    rw [e2]

theorem foldl_trimmedMessages (k : Nat) (hk : 0 < k)
    (ms : List ChatMessage) :
    List.foldl (fun acc m => trimmedMessages k acc m) [] ms = lastN k ms := by
  induction ms using List.reverseRecOn with
  | nil => simp [lastN]
  | append_singleton ms m ih =>
    rw [List.foldl_append, List.foldl_cons, List.foldl_nil, ih]
    exact trimmedMessages_lastN k hk ms m

theorem run_appends_cached (chat_id : String)
    (inputs : List (String × String × DateTime × DateTime)) :
    ∀ (st : ChatManagerState) (s : ChatSession),
      lookupKey st.active_sessions chat_id = some s →
      ∃ st' s', run_appends chat_id st inputs = .ok st' ∧
        st'.max_messages = st.max_messages ∧
        lookupKey st'.active_sessions chat_id = some s' ∧
        s'.messages =
          List.foldl
            (fun acc m => trimmedMessages (st.max_messages * 2) acc m)
            s.messages (inputs.map inputMessage) := by
  induction inputs with
  | nil => exact fun st s h => ⟨st, s, rfl, rfl, h, by simp⟩
  | cons input rest ih =>
    intro st s h
    have hstep :=
      add_message_cached st chat_id input.1 input.2.1 input.2.2.1 input.2.2.2 s h
    have hl : lookupKey
        (save_session_to_file
          { st with
            active_sessions :=
              setKey st.active_sessions chat_id
                { s with
                  messages :=
                    trimmedMessages (st.max_messages * 2) s.messages
                      ⟨input.1, input.2.1, input.2.2.1⟩,
                  updated_at := input.2.2.2 } }
          { s with
            messages :=
              trimmedMessages (st.max_messages * 2) s.messages
                ⟨input.1, input.2.1, input.2.2.1⟩,
            updated_at := input.2.2.2 }).active_sessions chat_id =
        some { s with
          messages :=
            trimmedMessages (st.max_messages * 2) s.messages
              ⟨input.1, input.2.1, input.2.2.1⟩,
          updated_at := input.2.2.2 } :=
      lookupKey_setKey_self _ _ _
    obtain ⟨st', s', hrun, hmax', hl', hmsgs⟩ := ih _ _ hl
    refine ⟨st', s', ?_, hmax', hl', ?_⟩
    · rw [run_appends, hstep]
      exact hrun
    · rw [hmsgs]
      rw [List.map_cons, List.foldl_cons]
      rfl

theorem length_trimmedMessages_of_gt (k : Nat) (hk : k ≠ 0)
    (msgs : List ChatMessage) (m : ChatMessage) (h : msgs.length > k) :
    (trimmedMessages k msgs m).length = k := by
  unfold trimmedMessages pySliceLast
  rw [if_pos (by simp; omega), if_neg hk, List.length_drop]
  simp
  omega

theorem exceptBindOk {ε α β : Type} (a : α) (f : α → Except ε β) :
    ((.ok a : Except ε α) >>= f) = f a := rfl

theorem exceptMapOk {ε α β : Type} (f : α → β) (a : α) :
    (f <$> (.ok a : Except ε α)) = .ok (f a) := rfl

theorem parseMessage_encodeMessage (m : ChatMessage) (h : m.timestamp.Valid) :
    parseMessage (encodeMessage m) = .ok m := by
  simp [parseMessage, encodeMessage, subscript, lookupKey, List.find?_cons,
    pyFromisoformat, fromisoformat_isoformat m.timestamp h, asStr,
    exceptBindOk, exceptMapOk]

theorem parseMessages_map_encode (msgs : List ChatMessage)
    (h : ∀ m ∈ msgs, m.timestamp.Valid) :
    parseMessages (msgs.map encodeMessage) = .ok msgs := by
  induction msgs with
  | nil => rfl
  | cons m rest ih =>
    simp only [List.map_cons, parseMessages]
    rw [parseMessage_encodeMessage m (h m (by simp))]
    rw [ih (fun x hx => h x (by simp [hx]))]
    rfl

theorem loadRaw_encodeSession (s : ChatSession) (hc : s.created_at.Valid)
    (hu : s.updated_at.Valid) (hm : ∀ m ∈ s.messages, m.timestamp.Valid) :
    loadRaw (encodeSession s) = .ok s := by
  simp [loadRaw, encodeSession, subscript, lookupKey, List.find?_cons,
    pyIterate, parseMessages_map_encode s.messages hm, pyFromisoformat,
    fromisoformat_isoformat s.created_at hc,
    fromisoformat_isoformat s.updated_at hu, asStr,
    exceptBindOk, exceptMapOk]

/-- The result of `load_session_from_file` when the file is present,
decodes, and yields `s`. -/
theorem load_found (st : ChatManagerState) (chat_id : String) (v : JValue)
    (s : ChatSession) (hf : lookupKey st.files chat_id = some (.valid v))
    (hl : loadRaw v = .ok s) :
    load_session_from_file st chat_id =
      (.ok (some s),
        { st with
          active_sessions := setKey st.active_sessions chat_id s }) := by
  unfold load_session_from_file
  rw [hf]
  simp [hl]

/-! ### Claims -/

/-- C3: `add_message` on an identifier that is neither cached (it was
never returned by `create_session`) nor present on disk raises
`ValueError(f"Chat session {chat_id} not found")`, and the manager state
— cache and files — is returned unchanged. -/
theorem add_message_unknown_session (st : ChatManagerState)
    (chat_id role content : String) (tMsg tUpd : DateTime)
    (hcache : lookupKey st.active_sessions chat_id = none)
    (hfile : lookupKey st.files chat_id = none) :
    add_message st chat_id role content tMsg tUpd =
      (.error (.valueError ("Chat session " ++ chat_id ++ " not found")), st) := by
  simp [add_message, get_session, load_session_from_file, hcache, hfile]

/-- Witness for C3 at a concrete empty manager state. -/
theorem add_message_unknown_session_witness :
    add_message ⟨5, [], []⟩ "nope" "user" "hi" dt0 dt0 =
      (.error (.valueError "Chat session nope not found"), ⟨5, [], []⟩) :=
  add_message_unknown_session ⟨5, [], []⟩ "nope" "user" "hi" dt0 dt0 rfl rfl

/-- C4: on an identifier that was never created (not cached) and never
persisted (no file), `get_session` returns `None` and
`get_conversation_history` returns `[]`; neither raises and neither
changes the state. -/
theorem get_session_history_unknown (st : ChatManagerState)
    (chat_id : String)
    (hcache : lookupKey st.active_sessions chat_id = none)
    (hfile : lookupKey st.files chat_id = none) :
    get_session st chat_id = (.ok none, st) ∧
      get_conversation_history st chat_id = (.ok [], st) := by
  constructor
  · simp [get_session, load_session_from_file, hcache, hfile]
  · simp [get_conversation_history, get_session, load_session_from_file,
      hcache, hfile]

/-- Witness for C4 at a concrete empty manager state. -/
theorem get_session_history_unknown_witness :
    get_session ⟨5, [], []⟩ "ghost" = (.ok none, ⟨5, [], []⟩) ∧
      get_conversation_history ⟨5, [], []⟩ "ghost" = (.ok [], ⟨5, [], []⟩) :=
  get_session_history_unknown ⟨5, [], []⟩ "ghost" rfl rfl

/-- C7 counterexample: `add_message` performs no trimming and no
emptiness check on `content` — appending the whitespace-only string
`"   "` to a cached empty session stores it verbatim, although its
stripped form is empty.  (Trimming and non-emptiness are enforced only
upstream, by `ChatRequest.validate_message`, and only for user
messages.) -/
theorem add_message_stores_whitespace_only :
    (add_message ⟨5, [("a", ⟨"a", [], dt0, dt0, "m"⟩)], []⟩
        "a" "user" "   " dt0 dt0).1 =
      .ok ⟨"a", [⟨"user", "   ", dt0⟩], dt0, dt0, "m"⟩ ∧
    pyStrip "   " = "" := by
  constructor <;> rfl

/-- C7 amended: the message `add_message` appends carries the `content`
argument verbatim — whatever trimming the stored content exhibits was done
by the caller; `add_message` itself neither trims nor rejects it.  The
stored session's most recent message is exactly
`⟨role, content, tMsg⟩`. -/
theorem add_message_content_verbatim (st : ChatManagerState)
    (chat_id role content : String) (tMsg tUpd : DateTime) (s : ChatSession)
    (hcache : lookupKey st.active_sessions chat_id = some s) :
    ∃ st' s', add_message st chat_id role content tMsg tUpd = (.ok s', st') ∧
      s'.messages.getLast? = some ⟨role, content, tMsg⟩ :=
  ⟨_, _, add_message_cached st chat_id role content tMsg tUpd s hcache,
    getLast?_trimmedMessages _ _ _⟩

/-- Witness for the amended C7 at a concrete state: the stored content
keeps its surrounding whitespace. -/
theorem add_message_content_verbatim_witness :
    ∃ st' s',
      add_message ⟨5, [("a", ⟨"a", [], dt0, dt0, "m"⟩)], []⟩
          "a" "user" "  hi  " dt0 dt0 = (.ok s', st') ∧
        s'.messages.getLast? = some ⟨"user", "  hi  ", dt0⟩ :=
  add_message_content_verbatim ⟨5, [("a", ⟨"a", [], dt0, dt0, "m"⟩)], []⟩
    "a" "user" "  hi  " dt0 dt0 ⟨"a", [], dt0, dt0, "m"⟩ rfl

/-- C8: `add_message` on a cached session only appends-and-trims the
message list and refreshes `updated_at`: identifier, bound model and
`created_at` are unchanged, and the new message list is a suffix of the
old list extended by the new message, so every surviving pre-existing
message keeps its role, content and timestamp. -/
theorem add_message_frame (st : ChatManagerState)
    (chat_id role content : String) (tMsg tUpd : DateTime) (s : ChatSession)
    (hcache : lookupKey st.active_sessions chat_id = some s) :
    ∃ st' s', add_message st chat_id role content tMsg tUpd = (.ok s', st') ∧
      s'.chat_id = s.chat_id ∧ s'.model = s.model ∧
      s'.created_at = s.created_at ∧ s'.updated_at = tUpd ∧
      s'.messages =
        trimmedMessages (st.max_messages * 2) s.messages
          ⟨role, content, tMsg⟩ ∧
      List.IsSuffix s'.messages
        (s.messages ++ [(⟨role, content, tMsg⟩ : ChatMessage)]) :=
  ⟨_, _, add_message_cached st chat_id role content tMsg tUpd s hcache,
    rfl, rfl, rfl, rfl, rfl, isSuffix_trimmedMessages _ _ _⟩

/-- Witness for C8 at a concrete one-session state. -/
theorem add_message_frame_witness :
    ∃ st' s',
      add_message ⟨5, [("a", ⟨"a", [⟨"user", "q", dt0⟩], dt0, dt0, "m"⟩)], []⟩
          "a" "assistant" "r" dt0 dt0 = (.ok s', st') ∧
        s'.chat_id = "a" ∧ s'.model = "m" ∧
        s'.created_at = dt0 ∧ s'.updated_at = dt0 ∧
        s'.messages =
          trimmedMessages (5 * 2) [⟨"user", "q", dt0⟩]
            ⟨"assistant", "r", dt0⟩ ∧
        List.IsSuffix s'.messages
          ([⟨"user", "q", dt0⟩] ++ [(⟨"assistant", "r", dt0⟩ : ChatMessage)]) :=
  add_message_frame ⟨5, [("a", ⟨"a", [⟨"user", "q", dt0⟩], dt0, dt0, "m"⟩)], []⟩
    "a" "assistant" "r" dt0 dt0 ⟨"a", [⟨"user", "q", dt0⟩], dt0, dt0, "m"⟩ rfl

/-- C9: the chat endpoint's `OpenRouterError` handler yields HTTP 400
exactly when the lowercased message contains `invalid`, `unauthorized` or
`bad request`, and 502 otherwise; the body's numeric `code` always equals
the HTTP status.  Instantiated at the four messages `call_openrouter`
raises: unauthorized and bad-request classify as 400, rate-limit and
model-not-found as 502. -/
theorem openrouter_error_classification (msg : String) :
    ((openrouter_error_response msg).status_code = 400 ↔
      (pyContains (pyLower msg) "invalid" = true ∨
        pyContains (pyLower msg) "unauthorized" = true ∨
        pyContains (pyLower msg) "bad request" = true)) ∧
    ((openrouter_error_response msg).status_code = 502 ↔
      ¬(pyContains (pyLower msg) "invalid" = true ∨
        pyContains (pyLower msg) "unauthorized" = true ∨
        pyContains (pyLower msg) "bad request" = true)) ∧
    (openrouter_error_response msg).detail.code =
      (openrouter_error_response msg).status_code ∧
    (openrouter_error_response unauthorized_message).status_code = 400 ∧
    (openrouter_error_response rate_limit_message).status_code = 502 ∧
    (openrouter_error_response (model_not_found_message "model-a")).status_code
      = 502 ∧
    (openrouter_error_response bad_request_message).status_code = 400 := by
  refine ⟨?_, ?_, ?_, by decide, by decide, by decide, by decide⟩ <;>
    by_cases h :
      chat_keywords.any (fun keyword => pyContains (pyLower msg) keyword) <;>
    simp_all [openrouter_error_response, chat_keywords]

/-- C1: starting from a freshly created session (empty message list),
after any sequence of `add_message` calls the session's message list is
exactly the last `min(total appended, 2*max_messages)` appended messages
in append order, and in particular never exceeds `2*max_messages`.
Quantifying over every input sequence yields the after-each-call form of
the claim, every prefix being itself a sequence.  The hypothesis
`0 < max_messages` matches the deployed configuration (default 5;
`main.py` passes 5): with `max_messages = 0` the slice `[-0:]` would keep
the whole list. -/
theorem append_sequence_keeps_last_window (st : ChatManagerState)
    (chat_id : String) (s : ChatSession)
    (inputs : List (String × String × DateTime × DateTime))
    (hmax : 0 < st.max_messages)
    (hcache : lookupKey st.active_sessions chat_id = some s)
    (hfresh : s.messages = []) :
    ∃ st' s', run_appends chat_id st inputs = .ok st' ∧
      lookupKey st'.active_sessions chat_id = some s' ∧
      s'.messages = lastN (st.max_messages * 2) (inputs.map inputMessage) ∧
      s'.messages.length ≤ st.max_messages * 2 := by
  obtain ⟨st', s', hrun, hmax', hl, hmsgs⟩ :=
    run_appends_cached chat_id inputs st s hcache
  have hk : 0 < st.max_messages * 2 := by omega
  refine ⟨st', s', hrun, hl, ?_, ?_⟩
  · rw [hmsgs, hfresh, foldl_trimmedMessages _ hk]
  · rw [hmsgs, hfresh, foldl_trimmedMessages _ hk, length_lastN]
    omega

/-- Witness for C1: with `max_messages = 1`, appending three messages to
a fresh session retains exactly the last two. -/
theorem append_sequence_keeps_last_window_witness :
    ∃ st' s',
      run_appends "a" ⟨1, [("a", ⟨"a", [], dt0, dt0, "m"⟩)], []⟩
          [("user", "m1", dt0, dt0), ("assistant", "m2", dt0, dt0),
            ("user", "m3", dt0, dt0)] = .ok st' ∧
        lookupKey st'.active_sessions "a" = some s' ∧
        s'.messages =
          lastN (1 * 2)
            ([("user", "m1", dt0, dt0), ("assistant", "m2", dt0, dt0),
              ("user", "m3", dt0, dt0)].map inputMessage) ∧
        s'.messages.length ≤ 1 * 2 :=
  append_sequence_keeps_last_window ⟨1, [("a", ⟨"a", [], dt0, dt0, "m"⟩)], []⟩
    "a" ⟨"a", [], dt0, dt0, "m"⟩
    [("user", "m1", dt0, dt0), ("assistant", "m2", dt0, dt0),
      ("user", "m3", dt0, dt0)]
    (by decide) rfl rfl

/-- C2: saving a session to its JSON file and loading it back by its
identifier yields a session equal to the original in every field —
`chat_id`, `model`, `created_at`, `updated_at`, and each message's role,
content and timestamp.  The `isoformat`/`fromisoformat` codec is exact to
the microsecond, Python `datetime.now()`'s full precision, so not even
sub-second precision is lost (the claim permits that, but it does not
occur).  Loading also populates the cache with the loaded session. -/
theorem save_load_roundtrip (st : ChatManagerState) (s : ChatSession)
    (hc : s.created_at.Valid) (hu : s.updated_at.Valid)
    (hm : ∀ m ∈ s.messages, m.timestamp.Valid) :
    load_session_from_file (save_session_to_file st s) s.chat_id =
      (.ok (some s),
        { max_messages := st.max_messages,
          active_sessions := setKey st.active_sessions s.chat_id s,
          files := setKey st.files s.chat_id (.valid (encodeSession s)) }) := by
  have hf : lookupKey (save_session_to_file st s).files s.chat_id =
      some (.valid (encodeSession s)) :=
    lookupKey_setKey_self st.files s.chat_id (.valid (encodeSession s))
  exact load_found (save_session_to_file st s) s.chat_id (encodeSession s) s
    hf (loadRaw_encodeSession s hc hu hm)

/-- Witness for C2 at a one-message session whose timestamps carry
nonzero microseconds. -/
theorem save_load_roundtrip_witness :
    load_session_from_file
        (save_session_to_file ⟨5, [], []⟩
          ⟨"w", [⟨"user", "hi", ⟨2024, 5, 17, 13, 45, 59, 123456⟩⟩],
            dt0, ⟨2024, 5, 17, 13, 45, 59, 123456⟩, "m"⟩) "w" =
      (.ok (some ⟨"w", [⟨"user", "hi", ⟨2024, 5, 17, 13, 45, 59, 123456⟩⟩],
          dt0, ⟨2024, 5, 17, 13, 45, 59, 123456⟩, "m"⟩),
        ⟨5,
          setKey [] "w"
            ⟨"w", [⟨"user", "hi", ⟨2024, 5, 17, 13, 45, 59, 123456⟩⟩],
              dt0, ⟨2024, 5, 17, 13, 45, 59, 123456⟩, "m"⟩,
          setKey [] "w"
            (.valid (encodeSession
              ⟨"w", [⟨"user", "hi", ⟨2024, 5, 17, 13, 45, 59, 123456⟩⟩],
                dt0, ⟨2024, 5, 17, 13, 45, 59, 123456⟩, "m"⟩))⟩) :=
  save_load_roundtrip ⟨5, [], []⟩
    ⟨"w", [⟨"user", "hi", ⟨2024, 5, 17, 13, 45, 59, 123456⟩⟩],
      dt0, ⟨2024, 5, 17, 13, 45, 59, 123456⟩, "m"⟩
    (by decide) (by decide) (by decide)

/-- C5 counterexample: the file `bad-id.json` holding the valid JSON
document `7` — not an object, hence not a well-formed session document —
makes `get_session "bad-id"` raise `TypeError` (from
`session_data["messages"]` subscripting a non-dict) instead of returning
not-found: the `except` clause of `_load_session_from_file` catches only
`json.JSONDecodeError`, `KeyError` and `ValueError`. -/
theorem get_session_raises_on_nonobject_file :
    get_session ⟨5, [], [("bad-id", .valid (.num 7))]⟩ "bad-id" =
      (.error .typeError, ⟨5, [], [("bad-id", .valid (.num 7))]⟩) := rfl

/-- C5 amended: for file content that is invalid JSON text
(`json.JSONDecodeError`), or a document whose decoding fails with
`KeyError` (missing expected field) or `ValueError` (unparseable
timestamp string, or a pydantic `ValidationError`), `get_session` returns
not-found without raising and without changing state (the code also logs
a diagnostic, not modelled).  Documents whose shape makes the loader
raise `TypeError` — e.g. a non-object top level or non-object message
entries — are not caught and propagate. -/
theorem get_session_corrupt_file_not_found (st : ChatManagerState)
    (chat_id : String)
    (hcache : lookupKey st.active_sessions chat_id = none)
    (h : lookupKey st.files chat_id = some .invalid ∨
      ∃ v msg, lookupKey st.files chat_id = some (.valid v) ∧
        (loadRaw v = .error (.valueError msg) ∨ loadRaw v = .error .keyError)) :
    get_session st chat_id = (.ok none, st) := by
  unfold get_session load_session_from_file
  rw [hcache]
  rcases h with h | ⟨v, msg, hf, hl | hl⟩
  · rw [h]
  · rw [hf]
    simp [hl]
  · rw [hf]
    simp [hl]

/-- Witness for the amended C5: a file `json.load` rejects yields
not-found. -/
theorem get_session_corrupt_file_not_found_witness :
    get_session ⟨5, [], [("bad", .invalid)]⟩ "bad" =
      (.ok none, ⟨5, [], [("bad", .invalid)]⟩) :=
  get_session_corrupt_file_not_found ⟨5, [], [("bad", .invalid)]⟩ "bad"
    rfl (Or.inl rfl)

/-- C6: `create_session` writes nothing to disk — the file map is
untouched, so `list_sessions` is unchanged and does not contain the fresh
identifier (fresh in the sense that no file of that name exists, which
`uuid.uuid4()` provides); after the first `add_message` on the new
session, the identifier appears in `list_sessions`.  `list_sessions`
enumerates exactly the stems of the persisted files, never the in-memory
cache. -/
theorem create_session_no_disk_write (st : ChatManagerState)
    (chat_id model : String) (tCreated tUpdated : DateTime)
    (role content : String) (tMsg tUpd : DateTime)
    (hfile : lookupKey st.files chat_id = none) :
    (create_session st chat_id model tCreated tUpdated).2.files = st.files ∧
    list_sessions (create_session st chat_id model tCreated tUpdated).2 =
      list_sessions st ∧
    chat_id ∉ list_sessions (create_session st chat_id model tCreated tUpdated).2 ∧
    (∃ st' s',
      add_message (create_session st chat_id model tCreated tUpdated).2
          chat_id role content tMsg tUpd = (.ok s', st') ∧
        chat_id ∈ list_sessions st') := by
  refine ⟨rfl, rfl, ?_, ?_⟩
  · exact not_mem_keys_of_lookupKey_none st.files chat_id hfile
  · have hcache1 : lookupKey
        (create_session st chat_id model tCreated tUpdated).2.active_sessions
        chat_id = some ⟨chat_id, [], tCreated, tUpdated, model⟩ :=
      lookupKey_setKey_self st.active_sessions chat_id
        ⟨chat_id, [], tCreated, tUpdated, model⟩
    refine ⟨_, _,
      add_message_cached _ chat_id role content tMsg tUpd _ hcache1, ?_⟩
    exact mem_keys_setKey st.files chat_id _

/-- Witness for C6 at an empty manager state. -/
theorem create_session_no_disk_write_witness :
    (create_session ⟨5, [], []⟩ "f" "m" dt0 dt0).2.files =
      (⟨5, [], []⟩ : ChatManagerState).files ∧
    list_sessions (create_session ⟨5, [], []⟩ "f" "m" dt0 dt0).2 =
      list_sessions ⟨5, [], []⟩ ∧
    "f" ∉ list_sessions (create_session ⟨5, [], []⟩ "f" "m" dt0 dt0).2 ∧
    (∃ st' s',
      add_message (create_session ⟨5, [], []⟩ "f" "m" dt0 dt0).2
          "f" "user" "hi" dt0 dt0 = (.ok s', st') ∧
        "f" ∈ list_sessions st') :=
  create_session_no_disk_write ⟨5, [], []⟩ "f" "m" dt0 dt0 "user" "hi"
    dt0 dt0 rfl

/-- C10: the load path never trims.  For a persisted session document
holding more than `2*max_messages` messages (with no cache entry for the
identifier), `get_session` returns every message and
`get_conversation_history` returns every role/content pair; the bound is
re-established only by the next `add_message`, which (for a positive
bound) trims the list back to exactly `2*max_messages`. -/
theorem load_path_returns_untrimmed (st : ChatManagerState)
    (chat_id : String) (s : ChatSession)
    (hc : s.created_at.Valid) (hu : s.updated_at.Valid)
    (hm : ∀ m ∈ s.messages, m.timestamp.Valid)
    (hcache : lookupKey st.active_sessions chat_id = none)
    (hfile : lookupKey st.files chat_id = some (.valid (encodeSession s)))
    (hover : s.messages.length > st.max_messages * 2) :
    get_session st chat_id =
      (.ok (some s),
        { st with
          active_sessions := setKey st.active_sessions chat_id s }) ∧
    (get_conversation_history st chat_id).1 =
      .ok (s.messages.map (fun m => (m.role, m.content))) ∧
    (0 < st.max_messages →
      ∀ role content tMsg tUpd, ∃ st' s',
        add_message st chat_id role content tMsg tUpd = (.ok s', st') ∧
          s'.messages.length = st.max_messages * 2) := by
  have hget : get_session st chat_id =
      (.ok (some s),
        { st with
          active_sessions := setKey st.active_sessions chat_id s }) := by
    unfold get_session
    rw [hcache]
    exact load_found st chat_id (encodeSession s) s hfile
      (loadRaw_encodeSession s hc hu hm)
  refine ⟨hget, ?_, ?_⟩
  · unfold get_conversation_history
    rw [hget]
  · intro hmax role content tMsg tUpd
    have hadd : add_message st chat_id role content tMsg tUpd =
        (.ok { s with
            messages := trimmedMessages (st.max_messages * 2) s.messages
              ⟨role, content, tMsg⟩,
            updated_at := tUpd },
          save_session_to_file
            { st with
              active_sessions :=
                setKey (setKey st.active_sessions chat_id s) chat_id
                  { s with
                    messages := trimmedMessages (st.max_messages * 2)
                      s.messages ⟨role, content, tMsg⟩,
                    updated_at := tUpd } }
            { s with
              messages := trimmedMessages (st.max_messages * 2) s.messages
                ⟨role, content, tMsg⟩,
              updated_at := tUpd }) := by
      unfold add_message
      rw [hget]
      rfl
    exact ⟨_, _, hadd,
      length_trimmedMessages_of_gt (st.max_messages * 2) (by omega)
        s.messages ⟨role, content, tMsg⟩ hover⟩

/-- Witness for C10: a persisted three-message session with
`max_messages = 1` loads with all three messages, and the next append
trims back to two. -/
theorem load_path_returns_untrimmed_witness :
    get_session
        ⟨1, [],
          [("c", .valid (encodeSession
            ⟨"c", [⟨"user", "a", dt0⟩, ⟨"assistant", "b", dt0⟩,
              ⟨"user", "c3", dt0⟩], dt0, dt0, "m"⟩))]⟩ "c" =
      (.ok (some ⟨"c", [⟨"user", "a", dt0⟩, ⟨"assistant", "b", dt0⟩,
          ⟨"user", "c3", dt0⟩], dt0, dt0, "m"⟩),
        { (⟨1, [],
            [("c", .valid (encodeSession
              ⟨"c", [⟨"user", "a", dt0⟩, ⟨"assistant", "b", dt0⟩,
                ⟨"user", "c3", dt0⟩], dt0, dt0, "m"⟩))]⟩ : ChatManagerState)
          with
          active_sessions := setKey [] "c"
            ⟨"c", [⟨"user", "a", dt0⟩, ⟨"assistant", "b", dt0⟩,
              ⟨"user", "c3", dt0⟩], dt0, dt0, "m"⟩ }) ∧
    (get_conversation_history
        ⟨1, [],
          [("c", .valid (encodeSession
            ⟨"c", [⟨"user", "a", dt0⟩, ⟨"assistant", "b", dt0⟩,
              ⟨"user", "c3", dt0⟩], dt0, dt0, "m"⟩))]⟩ "c").1 =
      .ok ([⟨"user", "a", dt0⟩, ⟨"assistant", "b", dt0⟩,
          (⟨"user", "c3", dt0⟩ : ChatMessage)].map
        (fun m => (m.role, m.content))) ∧
    (0 < 1 →
      ∀ role content tMsg tUpd, ∃ st' s',
        add_message
            ⟨1, [],
              [("c", .valid (encodeSession
                ⟨"c", [⟨"user", "a", dt0⟩, ⟨"assistant", "b", dt0⟩,
                  ⟨"user", "c3", dt0⟩], dt0, dt0, "m"⟩))]⟩
            "c" role content tMsg tUpd = (.ok s', st') ∧
          s'.messages.length = 1 * 2) :=
  load_path_returns_untrimmed
    ⟨1, [],
      [("c", .valid (encodeSession
        ⟨"c", [⟨"user", "a", dt0⟩, ⟨"assistant", "b", dt0⟩,
          ⟨"user", "c3", dt0⟩], dt0, dt0, "m"⟩))]⟩
    "c"
    ⟨"c", [⟨"user", "a", dt0⟩, ⟨"assistant", "b", dt0⟩,
      ⟨"user", "c3", dt0⟩], dt0, dt0, "m"⟩
    (by decide) (by decide) (by decide) rfl rfl (by decide)

end OpenRouterProxy
